import Mathlib

/-!
Verification development for the revenue-performance analytics application.

The repository ships a React front-end (upload pages, dashboard, ML result
panels) together with a multi-stage analytics pipeline described in the
project specification.  The front-end components are embedded directly from
the JavaScript sources; the analytics pipeline (preprocessing, benchmark
enhancement, weekly aggregation, driver analysis, ML rate-gap scoring,
narrative generation and orchestration) is modelled from the specification,
since its Python sources are not part of this snapshot.

Money amounts are modelled as rationals (ℚ); machine week numbers, sample
counts and byte counts as naturals.
-/

namespace RevenuePerf

/-! ## Generic list-grouping machinery used by the weekly aggregator -/

/-- Sum of a rational-valued field over a list of rows. -/
def sumBy {α : Type} (l : List α) (f : α → ℚ) : ℚ := (l.map f).sum

/-- The distinct grouping keys occurring in a list of rows. -/
def groupKeys {α K : Type} [DecidableEq K] (l : List α) (key : α → K) : List K :=
  (l.map key).dedup

/-- The rows of a list that fall in the group of a given key. -/
def groupRows {α K : Type} [DecidableEq K] (l : List α) (key : α → K) (k : K) : List α :=
  l.filter (fun a => decide (key a = k))

theorem sumBy_nil {α : Type} (f : α → ℚ) : sumBy [] f = 0 := rfl

theorem sumBy_cons {α : Type} (a : α) (t : List α) (f : α → ℚ) :
    sumBy (a :: t) f = f a + sumBy t f := by
  simp [sumBy]

theorem sum_map_add {α : Type} (l : List α) (g h : α → ℚ) :
    (l.map (fun a => g a + h a)).sum = (l.map g).sum + (l.map h).sum := by
  induction l with
  | nil => simp
  | cons a t ih => simp only [List.map_cons, List.sum_cons, ih]; ring

theorem sum_indicator_not_mem {K : Type} [DecidableEq K] (ks : List K) (x : K) (c : ℚ)
    (hx : x ∉ ks) : (ks.map (fun k => if x = k then c else 0)).sum = 0 := by
  induction ks with
  | nil => simp
  | cons k t ih =>
    simp only [List.mem_cons, not_or] at hx
    simp [hx.1, ih hx.2]

theorem sum_indicator_nodup {K : Type} [DecidableEq K] (ks : List K) (x : K) (c : ℚ)
    (hnd : ks.Nodup) (hx : x ∈ ks) :
    (ks.map (fun k => if x = k then c else 0)).sum = c := by
  induction ks with
  | nil => cases hx
  | cons k t ih =>
    rw [List.nodup_cons] at hnd
    rcases List.mem_cons.mp hx with h | h
    · subst h
      simp [sum_indicator_not_mem t x c hnd.1]
    · have hxk : ¬ x = k := by
        intro e
        exact hnd.1 (e ▸ h)
      simp [hxk, ih hnd.2 h]

theorem groupRows_cons {α K : Type} [DecidableEq K] (a : α) (t : List α)
    (key : α → K) (k : K) :
    groupRows (a :: t) key k =
      if key a = k then a :: groupRows t key k else groupRows t key k := by
  by_cases h : key a = k <;> simp [groupRows, h]

/-- Summing a field group-by-group over a duplicate-free key list covering all
rows recovers the sum of the field over all rows. -/
theorem sum_groups {α K : Type} [DecidableEq K] (ks : List K) (l : List α)
    (key : α → K) (f : α → ℚ) (hnd : ks.Nodup) (hcov : ∀ a ∈ l, key a ∈ ks) :
    (ks.map (fun k => sumBy (groupRows l key k) f)).sum = sumBy l f := by
  induction l with
  | nil =>
    have h0 : (fun k => sumBy (groupRows ([] : List α) key k) f) = fun _ => (0 : ℚ) := by
      funext k; rfl
    rw [h0]
    simp [sumBy]
  | cons a t ih =>
    have hat : ∀ x ∈ t, key x ∈ ks := fun x hx => hcov x (List.mem_cons_of_mem a hx)
    have ha : key a ∈ ks := hcov a (List.mem_cons_self a t)
    have step : (fun k => sumBy (groupRows (a :: t) key k) f)
        = fun k => (if key a = k then f a else 0) + sumBy (groupRows t key k) f := by
      funext k
      rw [groupRows_cons]
      by_cases h : key a = k
      · simp [h, sumBy_cons]
      · simp [h]
    rw [step, sum_map_add, sum_indicator_nodup ks (key a) (f a) hnd ha, ih hat,
      sumBy_cons]

/-- Grouping by the de-duplicated key list of the rows themselves conserves
every summed field. -/
theorem sum_groupKeys {α K : Type} [DecidableEq K] (l : List α) (key : α → K)
    (f : α → ℚ) :
    ((groupKeys l key).map (fun k => sumBy (groupRows l key k) f)).sum = sumBy l f :=
  sum_groups _ l key f (List.nodup_dedup _)
    (fun _ ha => List.mem_dedup.mpr (List.mem_map_of_mem key ha))

/-! ## Data model: enhanced invoice rows and weekly aggregate views -/

/-- Modelled from the spec: a validated, benchmark-enhanced invoice-level row
(the Preprocessor output after the Benchmark Enhancer has attached the 85% E/M
rate and the optional historical peer rate).  The Python pipeline source is not
in the snapshot. -/
structure EnhancedRow where
  week : Nat
  payer : String
  benchmarkKey : String
  emCategory : String
  charge : ℚ
  payment : ℚ
  visitCount : ℚ
  expectedRate85em : ℚ
  historicalPeerRate : Option ℚ
deriving Repr, DecidableEq

/-- Modelled from the spec: a WeeklyAggregate row for either view, keyed by K. -/
structure WeeklyAggregate (K : Type) where
  key : K
  Charge : ℚ
  Payment : ℚ
  Visit_Count : ℚ
  Expected_Payment : ℚ
  benchmark_payment : ℚ
  collection_rate : Option ℚ
deriving Repr, DecidableEq

/-- Invoice-level contribution to Expected_Payment: the 85% E/M rate times the
row's visit count. -/
def rowExpectedPayment (r : EnhancedRow) : ℚ := r.expectedRate85em * r.visitCount

/-- The benchmark-payment terms of a group of rows: peer rate times visit
count for exactly the rows whose peer rate is defined.  A row without a peer
benchmark contributes no term at all — it is skipped, not replaced by a zero
benchmark; its missing benchmark stays visible downstream through the `none`
marker on the row and on the driver's peer gap. -/
def benchmarkTerms (grp : List EnhancedRow) : List ℚ :=
  grp.filterMap (fun r => r.historicalPeerRate.map (fun rate => rate * r.visitCount))

/-- Benchmark payment of a group: the sum of its defined benchmark terms. -/
def groupBenchmarkPayment (grp : List EnhancedRow) : ℚ := (benchmarkTerms grp).sum

/-- Modelled from the spec: the Weekly Aggregator's roll-up of one group. -/
def aggregateOf {K : Type} [DecidableEq K] (rows : List EnhancedRow)
    (key : EnhancedRow → K) (k : K) : WeeklyAggregate K :=
  let grp := groupRows rows key k
  let charge := sumBy grp (fun r => r.charge)
  let payment := sumBy grp (fun r => r.payment)
  { key := k
    Charge := charge
    Payment := payment
    Visit_Count := sumBy grp (fun r => r.visitCount)
    Expected_Payment := sumBy grp rowExpectedPayment
    benchmark_payment := groupBenchmarkPayment grp
    collection_rate := if charge = 0 then none else some (payment / charge) }

/-- Modelled from the spec: the Weekly Aggregator's view for a grouping key. -/
def aggregateBy {K : Type} [DecidableEq K] (rows : List EnhancedRow)
    (key : EnhancedRow → K) : List (WeeklyAggregate K) :=
  (groupKeys rows key).map (aggregateOf rows key)

/-- Key of the granular weekly view: (week, payer, BenchmarkKey). -/
def granularKey (r : EnhancedRow) : Nat × String × String :=
  (r.week, r.payer, r.benchmarkKey)

/-- Key of the aggregated weekly view: (week, payer, E/M-category). -/
def aggregatedKey (r : EnhancedRow) : Nat × String × String :=
  (r.week, r.payer, r.emCategory)

/-- The granular weekly view (by week, payer, BenchmarkKey). -/
def weeklyGranularView (rows : List EnhancedRow) : List (WeeklyAggregate (Nat × String × String)) :=
  aggregateBy rows granularKey

/-- The aggregated weekly view (by week, payer, E/M category). -/
def weeklyAggregatedView (rows : List EnhancedRow) : List (WeeklyAggregate (Nat × String × String)) :=
  aggregateBy rows aggregatedKey

/-- Sum of Payment over a weekly view. -/
def totalPayment {K : Type} (v : List (WeeklyAggregate K)) : ℚ :=
  (v.map (fun w => w.Payment)).sum

/-- Sum of Charge over a weekly view. -/
def totalCharge {K : Type} (v : List (WeeklyAggregate K)) : ℚ :=
  (v.map (fun w => w.Charge)).sum

/-- Sum of Expected_Payment over a weekly view. -/
def totalExpectedPayment {K : Type} (v : List (WeeklyAggregate K)) : ℚ :=
  (v.map (fun w => w.Expected_Payment)).sum

/-- Sum of benchmark_payment over a weekly view. -/
def totalBenchmarkPayment {K : Type} (v : List (WeeklyAggregate K)) : ℚ :=
  (v.map (fun w => w.benchmark_payment)).sum

theorem totalPayment_aggregateBy {K : Type} [DecidableEq K]
    (rows : List EnhancedRow) (key : EnhancedRow → K) :
    totalPayment (aggregateBy rows key) = sumBy rows (fun r => r.payment) := by
  unfold totalPayment aggregateBy
  rw [List.map_map]
  exact sum_groupKeys rows key (fun r => r.payment)

theorem totalCharge_aggregateBy {K : Type} [DecidableEq K]
    (rows : List EnhancedRow) (key : EnhancedRow → K) :
    totalCharge (aggregateBy rows key) = sumBy rows (fun r => r.charge) := by
  unfold totalCharge aggregateBy
  rw [List.map_map]
  exact sum_groupKeys rows key (fun r => r.charge)

theorem totalExpectedPayment_aggregateBy {K : Type} [DecidableEq K]
    (rows : List EnhancedRow) (key : EnhancedRow → K) :
    totalExpectedPayment (aggregateBy rows key) = sumBy rows rowExpectedPayment := by
  unfold totalExpectedPayment aggregateBy
  rw [List.map_map]
  exact sum_groupKeys rows key rowExpectedPayment

/-- The summed benchmark terms of a group coincide with the per-row sum whose
summand is the defined term and vanishes on skipped rows; this bridges the
null-skipping group sum to the generic grouping machinery. -/
theorem groupBenchmarkPayment_eq_sumBy (grp : List EnhancedRow) :
    groupBenchmarkPayment grp
      = sumBy grp
          (fun r => (r.historicalPeerRate.map (fun rate => rate * r.visitCount)).getD 0) := by
  induction grp with
  | nil => rfl
  | cons r t ih =>
    unfold groupBenchmarkPayment benchmarkTerms at ih ⊢
    cases h : r.historicalPeerRate with
    | none => simp [List.filterMap_cons, h, sumBy_cons, ih]
    | some rate => simp [List.filterMap_cons, h, sumBy_cons, ih]

theorem totalBenchmarkPayment_aggregateBy {K : Type} [DecidableEq K]
    (rows : List EnhancedRow) (key : EnhancedRow → K) :
    totalBenchmarkPayment (aggregateBy rows key) = groupBenchmarkPayment rows := by
  unfold totalBenchmarkPayment aggregateBy
  rw [List.map_map]
  have hfun : ((fun w => w.benchmark_payment) ∘ aggregateOf rows key)
      = fun k => sumBy (groupRows rows key k)
          (fun r => (r.historicalPeerRate.map (fun rate => rate * r.visitCount)).getD 0) := by
    funext k
    exact groupBenchmarkPayment_eq_sumBy (groupRows rows key k)
  rw [hfun, sum_groupKeys]
  exact (groupBenchmarkPayment_eq_sumBy rows).symm

/-- C1 conservation law: for every run, the granular weekly view and the
aggregated weekly view sum to the same Payment, Charge, Expected_Payment and
benchmark_payment totals — re-grouping the granular view to the aggregated key
drops and double-counts no invoice-level dollar. -/
theorem conservation_law (rows : List EnhancedRow) :
    totalPayment (weeklyGranularView rows) = totalPayment (weeklyAggregatedView rows)
  ∧ totalCharge (weeklyGranularView rows) = totalCharge (weeklyAggregatedView rows)
  ∧ totalExpectedPayment (weeklyGranularView rows)
      = totalExpectedPayment (weeklyAggregatedView rows)
  ∧ totalBenchmarkPayment (weeklyGranularView rows)
      = totalBenchmarkPayment (weeklyAggregatedView rows) := by
  unfold weeklyGranularView weeklyAggregatedView
  refine ⟨?_, ?_, ?_, ?_⟩
  · rw [totalPayment_aggregateBy, totalPayment_aggregateBy]
  · rw [totalCharge_aggregateBy, totalCharge_aggregateBy]
  · rw [totalExpectedPayment_aggregateBy, totalExpectedPayment_aggregateBy]
  · rw [totalBenchmarkPayment_aggregateBy, totalBenchmarkPayment_aggregateBy]

/-! ## Configuration -/

/-- Modelled from the spec: the immutable run configuration threaded through
every stage (§6), plus the ML minimum sample count of §4.6. -/
structure Config where
  materiality_threshold_rule : ℚ
  materiality_threshold_ml : ℚ
  min_historical_periods : Nat
  data_quality_tolerance : ℚ
  random_seed : Nat
  min_training_samples : Nat
deriving Repr, DecidableEq

/-! ## Benchmark Enhancer: historical peer rate -/

/-- Modelled from the spec: one prior-period observation from the historical
reference data, keyed by BenchmarkKey. -/
structure HistoricalPeriodRow where
  key : String
  period : Nat
  ratePerVisit : ℚ
deriving Repr, DecidableEq

/-- The historical rows belonging to one BenchmarkKey. -/
def historyFor (history : List HistoricalPeriodRow) (key : String) :
    List HistoricalPeriodRow :=
  history.filter (fun h => decide (h.key = key))

def insertByPeriod (h : HistoricalPeriodRow) :
    List HistoricalPeriodRow → List HistoricalPeriodRow
  | [] => [h]
  | x :: t => if h.period ≤ x.period then h :: x :: t else x :: insertByPeriod h t

/-- Chronological (oldest-first) ordering of historical rows. -/
def sortByPeriod : List HistoricalPeriodRow → List HistoricalPeriodRow
  | [] => []
  | h :: t => insertByPeriod h (sortByPeriod t)

/-- Modelled from the spec: weighted average with linear-decay weights — the
i-th value of a chronologically ordered list carries weight i+1, so more
recent periods weigh more. -/
def weightedAvg (xs : List ℚ) : ℚ :=
  let n := xs.length
  let wsum : ℚ := ((List.range n).map (fun i => ((i : ℚ) + 1))).sum
  let vsum : ℚ := ((xs.zip (List.range n)).map (fun p => p.1 * ((p.2 : ℚ) + 1))).sum
  if wsum = 0 then 0 else vsum / wsum

/-- Modelled from the spec: the Benchmark Enhancer's historical peer rate for a
BenchmarkKey — a recency-weighted average of rate-per-visit over the trailing
historical periods, explicitly undefined (`none`) when fewer than
`min_historical_periods` historical rows exist for the key. -/
def historicalPeerRate (cfg : Config) (history : List HistoricalPeriodRow)
    (key : String) : Option ℚ :=
  let rows := historyFor history key
  if rows.length < cfg.min_historical_periods then none
  else some (weightedAvg ((sortByPeriod rows).map (fun h => h.ratePerVisit)))

/-! ## ML Rate-Gap stage -/

/-- Realized rate per visit of a row (Payment / Visit_Count). -/
def actual_rate_per_visit (r : EnhancedRow) : ℚ := r.payment / r.visitCount

/-- Modelled from the spec: one MLDiagnosticRecord of the ML rate-gap stage. -/
structure MLDiagnosticRecord where
  week : Nat
  payer : String
  benchmarkKey : String
  Visit_Count : ℚ
  ML_Expected_Rate : ℚ
  ML_Rate_Gap : ℚ
  ML_Dollar_Gap : ℚ
  ML_Materiality_Flag : Bool
deriving Repr, DecidableEq

/-- Modelled from the spec: rows usable as ML training/scoring samples after
feature construction (a row needs a well-defined rate per visit). -/
def mlFeatureRows (rows : List EnhancedRow) : List EnhancedRow :=
  rows.filter (fun r => decide (r.visitCount ≠ 0))

/-- Modelled from the spec: the trained regressor is an unspecified but
deterministic function of the training data and the fixed seed; modelled here
as the training-set mean rate per visit. -/
def mlPredict (train : List EnhancedRow) (_seed : Nat) (_r : EnhancedRow) : ℚ :=
  if train.length = 0 then 0
  else sumBy train actual_rate_per_visit / (train.length : ℚ)

/-- Modelled from the spec: ML scoring of one row, given the trained model's
prediction function (§4.6). -/
def scoreRow (cfg : Config) (predict : EnhancedRow → ℚ) (r : EnhancedRow) :
    MLDiagnosticRecord :=
  let expected := predict r
  let rateGap := actual_rate_per_visit r - expected
  let dollarGap := rateGap * r.visitCount
  { week := r.week
    payer := r.payer
    benchmarkKey := r.benchmarkKey
    Visit_Count := r.visitCount
    ML_Expected_Rate := expected
    ML_Rate_Gap := rateGap
    ML_Dollar_Gap := dollarGap
    ML_Materiality_Flag := decide (cfg.materiality_threshold_ml ≤ |dollarGap|) }

/-- C2 gap algebra: every row scored by the ML rate-gap stage satisfies
ML_Rate_Gap = actual_rate_per_visit − ML_Expected_Rate,
ML_Dollar_Gap = ML_Rate_Gap × Visit_Count (exactly, in exact rational
arithmetic), and ML_Materiality_Flag holds iff
abs ML_Dollar_Gap ≥ materiality_threshold_ml. -/
theorem gap_algebra (cfg : Config) (predict : EnhancedRow → ℚ) (r : EnhancedRow) :
    (scoreRow cfg predict r).ML_Rate_Gap
        = actual_rate_per_visit r - (scoreRow cfg predict r).ML_Expected_Rate
  ∧ (scoreRow cfg predict r).ML_Dollar_Gap
        = (scoreRow cfg predict r).ML_Rate_Gap * (scoreRow cfg predict r).Visit_Count
  ∧ ((scoreRow cfg predict r).ML_Materiality_Flag = true
        ↔ cfg.materiality_threshold_ml ≤ |(scoreRow cfg predict r).ML_Dollar_Gap|) := by
  refine ⟨rfl, rfl, ?_⟩
  simp [scoreRow]

/-! ## Pipeline model: input file, preprocessing, orchestration -/

/-- Modelled from the spec: the fatal error taxonomy of §7. -/
inductive ErrorKind
  | inputValidation
  | dataQuality
  | artifactWriteFailure
deriving Repr, DecidableEq

/-- Nonzero completion code identifying the kind of fatal error. -/
def ErrorKind.code : ErrorKind → Nat
  | .inputValidation => 1
  | .dataQuality => 2
  | .artifactWriteFailure => 3

/-- Stage recorded in the run summary for a fatal error kind. -/
def stageNameOf : ErrorKind → String
  | .inputValidation => "invoice_preprocessor"
  | .dataQuality => "invoice_preprocessor"
  | .artifactWriteFailure => "artifact_io"

/-- Modelled from the spec: one raw input row; a `none` field is a missing or
malformed value in that column. -/
structure RawRow where
  payer : Option String
  cpt : Option String
  serviceDate : Option Nat
  charge : Option ℚ
  payment : Option ℚ
  visitCount : Option ℚ
deriving Repr, DecidableEq

/-- Modelled from the spec: the single tabular input file of a run, together
with the historical reference data (which may be embedded in the same file). -/
structure InputFile where
  columns : List String
  rows : List RawRow
  history : List HistoricalPeriodRow
deriving Repr, DecidableEq

/-- The required input columns of §4.1. -/
def requiredColumns : List String :=
  ["payer", "cpt", "service_date", "charge", "payment", "visit_count"]

/-- The required columns absent from an input file. -/
def missingColumns (input : InputFile) : List String :=
  requiredColumns.filter (fun c => ! input.columns.contains c)

/-- Modelled from the spec: a validated invoice-level record. -/
structure InvoiceRecord where
  payer : String
  cpt : String
  serviceDate : Nat
  charge : ℚ
  payment : ℚ
  visitCount : ℚ
deriving Repr, DecidableEq

/-- A raw row parses iff every required value is present and well-formed. -/
def parseRow (r : RawRow) : Option InvoiceRecord :=
  match r.payer, r.cpt, r.serviceDate, r.charge, r.payment, r.visitCount with
  | some p, some c, some d, some ch, some pay, some v =>
      some { payer := p, cpt := c, serviceDate := d, charge := ch,
             payment := pay, visitCount := v }
  | _, _, _, _, _, _ => none

/-- Modelled from the spec: E/M category of a CPT code under the fixed
schedule. -/
def emCategoryOf (cpt : String) : String :=
  if cpt = "99213" ∨ cpt = "99214" ∨ cpt = "99215" then "EM-Established"
  else if cpt = "99203" ∨ cpt = "99204" ∨ cpt = "99205" then "EM-New"
  else "Other"

/-- Modelled from the spec: the deterministic 85% E/M expected rate per visit
from the fixed schedule lookup keyed on CPT. -/
def rate85emOf (cpt : String) : ℚ :=
  if cpt = "99213" then 85
  else if cpt = "99214" then 120
  else if cpt = "99215" then 160
  else if cpt = "99203" then 100
  else if cpt = "99204" then 150
  else if cpt = "99205" then 200
  else 60

/-- BenchmarkKey derived from payer and CPT grouping. -/
def benchmarkKeyOf (rec : InvoiceRecord) : String := rec.payer ++ "|" ++ rec.cpt

/-- Modelled from the spec: the Benchmark Enhancer attaches the week bucket,
the keys, the 85% E/M rate and the (optional) historical peer rate to a
validated record. -/
def enhanceRecord (cfg : Config) (history : List HistoricalPeriodRow)
    (rec : InvoiceRecord) : EnhancedRow :=
  { week := rec.serviceDate / 7
    payer := rec.payer
    benchmarkKey := benchmarkKeyOf rec
    emCategory := emCategoryOf rec.cpt
    charge := rec.charge
    payment := rec.payment
    visitCount := rec.visitCount
    expectedRate85em := rate85emOf rec.cpt
    historicalPeerRate := historicalPeerRate cfg history (benchmarkKeyOf rec) }

/-- Modelled from the spec: the Invoice Preprocessor (§4.1) — fail with
InputValidationError when a required column is absent, otherwise parse rows,
drop the malformed ones, and fail with DataQualityError when the rejection
rate exceeds the configured tolerance. -/
def preprocess (input : InputFile) (cfg : Config) :
    Except ErrorKind (List InvoiceRecord) :=
  if missingColumns input ≠ [] then .error .inputValidation
  else
    let parsed := input.rows.filterMap parseRow
    let total := input.rows.length
    let rejected := total - parsed.length
    if (rejected : ℚ) > cfg.data_quality_tolerance * (total : ℚ) then
      .error .dataQuality
    else .ok parsed

/-- Preprocessing followed by benchmark enhancement. -/
def pipelineEnhanced (input : InputFile) (cfg : Config) :
    Except ErrorKind (List EnhancedRow) :=
  (preprocess input cfg).map (fun recs => recs.map (enhanceRecord cfg input.history))

/-! ## Underpayment drivers and narrative -/

/-- Modelled from the spec: one DriverRecord (§3, §4.4).  The 85% E/M gap is
always defined because the schedule lookup is total; the peer gap carries the
explicit `none` marker when the group has no peer benchmark (§7's unscored
marker — never a default of zero). -/
structure DriverRecord where
  week : Nat
  payer : String
  benchmarkKey : String
  gap_vs_85em : ℚ
  gap_vs_peer : Option ℚ
  material : Bool
deriving Repr, DecidableEq

/-- Whether a granular group carries a defined historical peer benchmark; per
§4.2 the peer rate is a function of the BenchmarkKey, so the rows of one
(week, payer, BenchmarkKey) group agree on definedness. -/
def groupPeerDefined (rows : List EnhancedRow) (k : Nat × String × String) : Bool :=
  (groupRows rows granularKey k).all (fun r => r.historicalPeerRate.isSome)

/-- Modelled from the spec: driver attribution of one granular weekly
aggregate row (§4.4).  The peer gap is computed only when the group's peer
benchmark is defined; an undefined benchmark yields the explicit `none`
marker, never a gap measured against a substituted zero benchmark. -/
def driverOf (cfg : Config) (rows : List EnhancedRow)
    (w : WeeklyAggregate (Nat × String × String)) : DriverRecord :=
  { week := w.key.1
    payer := w.key.2.1
    benchmarkKey := w.key.2.2
    gap_vs_85em := w.Payment - w.Expected_Payment
    gap_vs_peer :=
      if groupPeerDefined rows w.key then some (w.Payment - w.benchmark_payment)
      else none
    material := decide (cfg.materiality_threshold_rule ≤ |w.Payment - w.Expected_Payment|) }

/-- Modelled from the spec: a driver record lacks a benchmark only when it has
neither the 85% E/M rate nor the peer rate (§4.4).  The 85% E/M schedule of
this model is a total lookup, so no record lacks both — the condition is
constantly false here, and rows without a peer benchmark stay ranked by their
85% E/M gap while `gap_vs_peer = none` marks the missing peer benchmark. -/
def lacksBothBenchmarks (_d : DriverRecord) : Bool := false

/-- Modelled from the spec: the Underpayment Driver Analyzer's report (§4.4) —
a ranked list of the scored records plus the unscored records retained for
visibility. -/
structure DriverReport where
  ranked : List DriverRecord
  unscored : List DriverRecord
deriving Repr, DecidableEq

/-- Ranking order of §4.4: descending absolute dollar gap, ties broken by
BenchmarkKey lexical order. -/
def rankLE (a b : DriverRecord) : Bool :=
  decide (|b.gap_vs_85em| < |a.gap_vs_85em|)
    || (decide (|a.gap_vs_85em| = |b.gap_vs_85em|) && decide (a.benchmarkKey ≤ b.benchmarkKey))

def insertRanked (d : DriverRecord) : List DriverRecord → List DriverRecord
  | [] => [d]
  | x :: t => if rankLE d x then d :: x :: t else x :: insertRanked d t

/-- Deterministic insertion sort of driver records under the ranking order. -/
def rankDrivers : List DriverRecord → List DriverRecord
  | [] => []
  | d :: t => insertRanked d (rankDrivers t)

/-- Modelled from the spec: the Underpayment Driver Analyzer (§4.4) — scores
every granular-view row, ranks the records with a defined benchmark, and
retains the records lacking both benchmarks unscored instead of ranking
them. -/
def driverReport (cfg : Config) (rows : List EnhancedRow) : DriverReport :=
  let recs := (weeklyGranularView rows).map (driverOf cfg rows)
  { ranked := rankDrivers (recs.filter (fun d => ! lacksBothBenchmarks d))
    unscored := recs.filter lacksBothBenchmarks }

/-- C3 benchmark undefined-ness: a BenchmarkKey with fewer than
`min_historical_periods` historical rows has `historical_peer_rate` marked
undefined — an explicit no-value marker, never zero or a null treated as zero
(the marker holds exactly on such keys) — the Benchmark Enhancer stamps the
marker on every row of such a key, and the downstream consumers treat the
marker as "no peer benchmark available": rows carrying it contribute no
benchmark-payment term to the weekly aggregates (skipped, not zeroed), and the
driver analyzer records `gap_vs_peer = none` for their groups instead of a gap
measured against a substituted zero benchmark. -/
theorem benchmark_undefinedness (cfg : Config) (history : List HistoricalPeriodRow)
    (key : String) :
    (historicalPeerRate cfg history key = none
      ↔ (historyFor history key).length < cfg.min_historical_periods)
  ∧ (∀ rec : InvoiceRecord,
        (historyFor history (benchmarkKeyOf rec)).length < cfg.min_historical_periods →
        (enhanceRecord cfg history rec).historicalPeerRate = none)
  ∧ (∀ grp : List EnhancedRow,
        (∀ r ∈ grp, r.historicalPeerRate = none) → benchmarkTerms grp = [])
  ∧ (∀ (rows : List EnhancedRow) (w : WeeklyAggregate (Nat × String × String)),
        (∃ r ∈ rows, granularKey r = w.key) →
        (∀ r ∈ rows, granularKey r = w.key → r.historicalPeerRate = none) →
        (driverOf cfg rows w).gap_vs_peer = none) := by
  refine ⟨?_, ?_, ?_, ?_⟩
  · unfold historicalPeerRate
    by_cases h : (historyFor history key).length < cfg.min_historical_periods <;>
      simp [h]
  · intro rec h
    show historicalPeerRate cfg history (benchmarkKeyOf rec) = none
    unfold historicalPeerRate
    simp [h]
  · intro grp hall
    unfold benchmarkTerms
    rw [List.filterMap_eq_nil_iff]
    intro r hr
    simp [hall r hr]
  · intro rows w hex hall
    obtain ⟨r, hr, hk⟩ := hex
    have hpd : groupPeerDefined rows w.key = false := by
      unfold groupPeerDefined
      rw [List.all_eq_false]
      refine ⟨r, ?_, ?_⟩
      · unfold groupRows
        rw [List.mem_filter]
        exact ⟨hr, by simp [hk]⟩
      · simp [hall r hr hk]
    unfold driverOf
    simp [hpd]

/-- Modelled from the spec: the narrative artifact — two templated sections
plus an ML section that is omitted when the ML stage produced no diagnostics. -/
structure Narrative where
  wentWell : String
  canImprove : String
  mlSection : Option String
deriving Repr, DecidableEq

/-- Rendering of the narrative to its textual artifact. -/
def renderNarrative (n : Narrative) : String :=
  "What Went Well: " ++ n.wentWell ++ "\nWhat Can Be Improved: " ++ n.canImprove ++
    (match n.mlSection with
     | some s => "\nML Insights: " ++ s
     | none => "")

def describeDriver (d : DriverRecord) : String :=
  d.payer ++ " / " ++ d.benchmarkKey ++ " (week " ++ toString d.week ++ ")"

/-- Modelled from the spec: the Narrative Generator (§4.7) — a pure templated
function of the weekly aggregates, the ranked driver records, the ML
diagnostics and the config.  No randomness is involved, and when the ML stage
produced no diagnostics the ML section is omitted. -/
def generateNarrative (weekly : List (WeeklyAggregate (Nat × String × String)))
    (drivers : List DriverRecord) (ml : List MLDiagnosticRecord) (cfg : Config) :
    Narrative :=
  let ranked := rankDrivers drivers
  let positives := ranked.filter (fun d => decide (0 < d.gap_vs_85em))
  let negatives := ranked.filter (fun d => decide (d.gap_vs_85em < 0))
  let flagged := ml.filter (fun m => m.ML_Materiality_Flag)
  let wellText :=
    match positives with
    | [] => "Collections tracked the 85% E/M benchmark across "
              ++ toString weekly.length ++ " weekly groups."
    | d :: _ => "Above-benchmark collection led by " ++ describeDriver d ++ "."
  let improveText :=
    match negatives with
    | [] => "No material negative drivers against the 85% E/M benchmark."
    | d :: _ => "Largest negative driver: " ++ describeDriver d ++ "."
  { wentWell := wellText
    canImprove := improveText
    mlSection :=
      if ml.isEmpty then none
      else some ("Model flagged " ++ toString flagged.length ++ " of "
        ++ toString ml.length ++ " scored groups at threshold "
        ++ toString cfg.materiality_threshold_ml ++ ".") }

/-! ## ML stage outcome and the orchestrated run -/

/-- Model family recorded in the run summary. -/
inductive ModelType
  | hgbRegressor
  | none
deriving Repr, DecidableEq

/-- Modelled from the spec: outcome of the ML stage — the model family, the
held-out metrics, the training sample count and the scored diagnostics. -/
structure MLOutcome where
  model_type : ModelType
  r2_score : Option ℚ
  mean_absolute_error : Option ℚ
  training_samples : Nat
  diagnostics : List MLDiagnosticRecord
deriving Repr, DecidableEq

/-- Mean absolute error of the modelled predictor over the training rows. -/
def mlMAE (train : List EnhancedRow) (seed : Nat) : ℚ :=
  if train.length = 0 then 0
  else sumBy train (fun r => |actual_rate_per_visit r - mlPredict train seed r|)
        / (train.length : ℚ)

/-- Coefficient of determination of the modelled predictor over the training
rows (0 when the target has no variance). -/
def mlR2 (train : List EnhancedRow) (seed : Nat) : ℚ :=
  let mean := if train.length = 0 then 0
    else sumBy train actual_rate_per_visit / (train.length : ℚ)
  let sst := sumBy train (fun r => (actual_rate_per_visit r - mean) ^ 2)
  let sse := sumBy train (fun r => (actual_rate_per_visit r - mlPredict train seed r) ^ 2)
  if sst = 0 then 0 else 1 - sse / sst

/-- Modelled from the spec: the ML rate-gap stage (§4.6) with its soft-failure
path — when the training set after feature construction is smaller than the
minimum sample count, diagnostics are skipped and the model type is `none`. -/
def runMLStage (cfg : Config) (rows : List EnhancedRow) : MLOutcome :=
  let train := mlFeatureRows rows
  if train.length < cfg.min_training_samples then
    { model_type := .none
      r2_score := Option.none
      mean_absolute_error := Option.none
      training_samples := train.length
      diagnostics := [] }
  else
    { model_type := .hgbRegressor
      r2_score := some (mlR2 train cfg.random_seed)
      mean_absolute_error := some (mlMAE train cfg.random_seed)
      training_samples := train.length
      diagnostics := train.map (scoreRow cfg (mlPredict train cfg.random_seed)) }

/-- Modelled from the spec: the machine-readable PipelineRunSummary (§3). -/
structure PipelineRunSummary where
  total_transactions : Nat
  total_charges : ℚ
  total_payments : ℚ
  overall_collection_rate : Option ℚ
  model_type : ModelType
  r2_score : Option ℚ
  mean_absolute_error : Option ℚ
  training_samples : Nat
  status_code : Nat
  failed_stage : Option String
deriving Repr, DecidableEq

def weeklyGranularArtifact : String := "granular_weekly_performance.csv"
def weeklyAggregatedArtifact : String := "aggregated_weekly_performance.csv"
def driversArtifact : String := "underpayment_drivers.csv"
def cptArtifact : String := "cpt_rate_analysis.csv"
def mlDiagnosticsArtifact : String := "ml_rate_diagnostics.csv"
def narrativeArtifact : String := "performance_narratives.txt"
def summaryArtifact : String := "pipeline_summary.json"

/-- Modelled from the spec: the RunResult of §6 — completion code, summary and
produced artifact names — extended with the contents of the two artifacts the
properties below inspect (the ML diagnostics and the narrative). -/
structure RunResult where
  completionCode : Nat
  summary : PipelineRunSummary
  artifacts : List String
  mlDiagnostics : List MLDiagnosticRecord
  narrative : Option Narrative
deriving Repr, DecidableEq

/-- Modelled from the spec: the RunResult of a fatally failed run — the error
kind's nonzero code, a failure summary naming the stage, no artifacts. -/
def runFailure (e : ErrorKind) : RunResult :=
  { completionCode := e.code
    summary := { total_transactions := 0, total_charges := 0, total_payments := 0,
                 overall_collection_rate := none, model_type := .none,
                 r2_score := none, mean_absolute_error := none,
                 training_samples := 0, status_code := e.code,
                 failed_stage := some (stageNameOf e) }
    artifacts := []
    mlDiagnostics := []
    narrative := none }

/-- Modelled from the spec: the RunResult of a successful run over the
enhanced rows — aggregation, driver analysis, ML stage and narrative, with
completion code 0 and the full artifact list (the ML diagnostics artifact only
when the ML stage produced diagnostics). -/
def runSuccess (cfg : Config) (rows : List EnhancedRow) : RunResult :=
  let granular := weeklyGranularView rows
  let report := driverReport cfg rows
  let ml := runMLStage cfg rows
  let narr := generateNarrative granular report.ranked ml.diagnostics cfg
  let charges := sumBy rows (fun r => r.charge)
  let payments := sumBy rows (fun r => r.payment)
  { completionCode := 0
    summary := { total_transactions := rows.length
                 total_charges := charges
                 total_payments := payments
                 overall_collection_rate :=
                   if charges = 0 then none else some (payments / charges)
                 model_type := ml.model_type
                 r2_score := ml.r2_score
                 mean_absolute_error := ml.mean_absolute_error
                 training_samples := ml.training_samples
                 status_code := 0
                 failed_stage := none }
    artifacts := [weeklyGranularArtifact, weeklyAggregatedArtifact,
        driversArtifact, cptArtifact]
      ++ (if ml.diagnostics.isEmpty then [] else [mlDiagnosticsArtifact])
      ++ [narrativeArtifact, summaryArtifact]
    mlDiagnostics := ml.diagnostics
    narrative := some narr }

/-- Modelled from the spec: the Pipeline Orchestrator (§4.8) over the stage
models — on a fatal preprocessing error it halts with the error kind's nonzero
code and produces no downstream artifact; on success it runs aggregation,
driver analysis, the ML stage and the narrative generator and returns code 0. -/
def run (input : InputFile) (cfg : Config) : RunResult :=
  match pipelineEnhanced input cfg with
  | .error e => runFailure e
  | .ok rows => runSuccess cfg rows

theorem run_error_eq (input : InputFile) (cfg : Config) (e : ErrorKind)
    (h : pipelineEnhanced input cfg = .error e) : run input cfg = runFailure e := by
  unfold run
  rw [h]

theorem run_ok_eq (input : InputFile) (cfg : Config) (rows : List EnhancedRow)
    (h : pipelineEnhanced input cfg = .ok rows) :
    run input cfg = runSuccess cfg rows := by
  unfold run
  rw [h]

/-! ## External interface: API response and upload-page consumer -/

structure PipelineRunResponse where
  status : String
  return_code : Nat
deriving Repr, DecidableEq

/-- Modelled from the spec: the API layer surfaces the completion code and
summary verbatim (§7) — status is "ok" exactly on completion code 0 and the
returned code is the completion code itself, untranslated. -/
def apiPipelineResponse (r : RunResult) : PipelineRunResponse :=
  { status := if r.completionCode = 0 then "ok" else "error"
    return_code := r.completionCode }

/-- Embedded from src/frontend/src/pages/Upload.js (handleUpload, pipeline
branch, lines 44–63): a success message when `pipelineData.status === "ok"`
and a failure message otherwise, each displaying the returned code verbatim.
(On success the message is later refined with the output-file count, which
does not change the success determination.) -/
def pipelineStatusMessage (resp : PipelineRunResponse) : String :=
  if resp.status = "ok" then
    "✅ Pipeline completed successfully! Return code: " ++ toString resp.return_code
  else
    "❌ Pipeline failed with return code: " ++ toString resp.return_code

/-- Embedded from src/frontend/src/pages/Upload.js line 44: the consumer's
success/failure determination is the `pipelineData.status === "ok"` check. -/
def consumerDeemsSuccess (resp : PipelineRunResponse) : Bool :=
  resp.status == "ok"

/-! ## Sample configuration and inputs used by the concrete witnesses -/

def sampleConfig : Config :=
  { materiality_threshold_rule := 100
    materiality_threshold_ml := 250
    min_historical_periods := 3
    data_quality_tolerance := 1/20
    random_seed := 42
    min_training_samples := 30 }

/-- An input file whose payment column is absent. -/
def missingPaymentInput : InputFile :=
  { columns := ["payer", "cpt", "service_date", "charge", "visit_count"]
    rows := []
    history := [] }

/-- A well-formed input file with a single valid row — far fewer rows than
the minimum ML sample count of `sampleConfig`. -/
def smallValidInput : InputFile :=
  { columns := requiredColumns
    rows := [ { payer := some "A", cpt := some "99213", serviceDate := some 35,
                charge := some 1000, payment := some 700, visitCount := some 5 } ]
    history := [] }

/-! ## Claim theorems C4–C7 -/

/-- C4 fail-fast on missing required column: an input file lacking any
required column (in particular the payment-amount column) makes the run fail
with InputValidationError — the completion code is the InputValidationError
code, the summary records the failed stage, and no WeeklyAggregate artifact
(granular or aggregated) is produced. -/
theorem fail_fast_missing_column (input : InputFile) (cfg : Config)
    (h : missingColumns input ≠ []) :
    (run input cfg).completionCode = ErrorKind.inputValidation.code
  ∧ (run input cfg).summary.failed_stage = some "invoice_preprocessor"
  ∧ weeklyGranularArtifact ∉ (run input cfg).artifacts
  ∧ weeklyAggregatedArtifact ∉ (run input cfg).artifacts := by
  have hpre : preprocess input cfg = .error .inputValidation := by
    unfold preprocess
    simp [h]
  have henh : pipelineEnhanced input cfg = .error .inputValidation := by
    unfold pipelineEnhanced
    rw [hpre]
    rfl
  rw [run_error_eq input cfg _ henh]
  refine ⟨rfl, rfl, ?_, ?_⟩ <;> simp [runFailure]

theorem fail_fast_missing_column_witness :
    (run missingPaymentInput sampleConfig).completionCode
        = ErrorKind.inputValidation.code
  ∧ (run missingPaymentInput sampleConfig).summary.failed_stage
        = some "invoice_preprocessor"
  ∧ weeklyGranularArtifact ∉ (run missingPaymentInput sampleConfig).artifacts
  ∧ weeklyAggregatedArtifact ∉ (run missingPaymentInput sampleConfig).artifacts :=
  fail_fast_missing_column missingPaymentInput sampleConfig (by decide)

/-- C5 ML soft failure: when the training set after feature construction is
smaller than the minimum sample count, the run still completes with code 0,
the summary records model type `none`, the ML diagnostics are empty, the ML
diagnostics artifact is absent, and the narrative omits its ML section. -/
theorem ml_soft_failure (input : InputFile) (cfg : Config)
    (rows : List EnhancedRow)
    (hok : pipelineEnhanced input cfg = .ok rows)
    (hfew : (mlFeatureRows rows).length < cfg.min_training_samples) :
    (run input cfg).completionCode = 0
  ∧ (run input cfg).summary.model_type = ModelType.none
  ∧ (run input cfg).mlDiagnostics = []
  ∧ mlDiagnosticsArtifact ∉ (run input cfg).artifacts
  ∧ ∀ n, (run input cfg).narrative = some n → n.mlSection = Option.none := by
  have hml : runMLStage cfg rows =
      { model_type := .none, r2_score := Option.none,
        mean_absolute_error := Option.none,
        training_samples := (mlFeatureRows rows).length, diagnostics := [] } := by
    unfold runMLStage
    simp [hfew]
  rw [run_ok_eq input cfg rows hok]
  refine ⟨rfl, ?_, ?_, ?_, ?_⟩
  · show (runMLStage cfg rows).model_type = ModelType.none
    rw [hml]
  · show (runMLStage cfg rows).diagnostics = []
    rw [hml]
  · show mlDiagnosticsArtifact ∉
      [weeklyGranularArtifact, weeklyAggregatedArtifact, driversArtifact, cptArtifact]
        ++ (if (runMLStage cfg rows).diagnostics.isEmpty then []
            else [mlDiagnosticsArtifact])
        ++ [narrativeArtifact, summaryArtifact]
    rw [hml]
    simp [weeklyGranularArtifact, weeklyAggregatedArtifact, driversArtifact,
      cptArtifact, mlDiagnosticsArtifact, narrativeArtifact, summaryArtifact]
  · intro n hn
    have hval : (runSuccess cfg rows).narrative
        = some (generateNarrative (weeklyGranularView rows)
            (driverReport cfg rows).ranked
            (runMLStage cfg rows).diagnostics cfg) := rfl
    rw [hval] at hn
    have hn2 := Option.some.inj hn
    rw [← hn2, hml]
    simp [generateNarrative]

/-- The single validated record the preprocessor derives from
`smallValidInput`. -/
def smallParsedRecords : List InvoiceRecord :=
  [{ payer := "A", cpt := "99213", serviceDate := 35,
     charge := 1000, payment := 700, visitCount := 5 }]

/-- The single enhanced row the pipeline derives from `smallValidInput`. -/
def smallValidRows : List EnhancedRow :=
  [ enhanceRecord sampleConfig []
      { payer := "A", cpt := "99213", serviceDate := 35,
        charge := 1000, payment := 700, visitCount := 5 } ]

theorem smallValid_preprocess :
    preprocess smallValidInput sampleConfig = .ok smallParsedRecords := by
  have hc : ¬ missingColumns smallValidInput ≠ [] := by decide
  have hq : ¬ ((((1 : ℕ) - (1 : ℕ) : ℕ) : ℚ)
      > sampleConfig.data_quality_tolerance * ((1 : ℕ) : ℚ)) := by
    norm_num [sampleConfig]
  unfold preprocess
  rw [if_neg hc]
  show (if (((1 : ℕ) - (1 : ℕ) : ℕ) : ℚ)
        > sampleConfig.data_quality_tolerance * ((1 : ℕ) : ℚ)
      then Except.error ErrorKind.dataQuality
      else Except.ok smallParsedRecords) = Except.ok smallParsedRecords
  rw [if_neg hq]

theorem smallValid_enhanced :
    pipelineEnhanced smallValidInput sampleConfig = .ok smallValidRows := by
  unfold pipelineEnhanced
  rw [smallValid_preprocess]
  rfl

theorem ml_soft_failure_witness :
    (run smallValidInput sampleConfig).completionCode = 0
  ∧ (run smallValidInput sampleConfig).summary.model_type = ModelType.none
  ∧ (run smallValidInput sampleConfig).mlDiagnostics = []
  ∧ mlDiagnosticsArtifact ∉ (run smallValidInput sampleConfig).artifacts
  ∧ ∀ n, (run smallValidInput sampleConfig).narrative = some n →
        n.mlSection = Option.none :=
  ml_soft_failure smallValidInput sampleConfig smallValidRows
    smallValid_enhanced (by decide)

theorem benchmark_undefinedness_witness :
    (enhanceRecord sampleConfig []
        { payer := "A", cpt := "99213", serviceDate := 35,
          charge := 1000, payment := 700, visitCount := 5 }).historicalPeerRate = none
  ∧ (driverOf sampleConfig smallValidRows
        (aggregateOf smallValidRows granularKey (5, "A", "A|99213"))).gap_vs_peer
      = none :=
  ⟨(benchmark_undefinedness sampleConfig [] "A|99213").2.1
      { payer := "A", cpt := "99213", serviceDate := 35,
        charge := 1000, payment := 700, visitCount := 5 } (by decide),
   (benchmark_undefinedness sampleConfig [] "A|99213").2.2.2 smallValidRows
      (aggregateOf smallValidRows granularKey (5, "A", "A|99213"))
      ⟨enhanceRecord sampleConfig []
          { payer := "A", cpt := "99213", serviceDate := 35,
            charge := 1000, payment := 700, visitCount := 5 },
        by simp [smallValidRows], rfl⟩
      (by
        intro r hr hk
        simp only [smallValidRows, List.mem_singleton] at hr
        subst hr
        rfl)⟩

/-- C6 completion-code contract: the run's completion code is 0 exactly when
the pipeline succeeded and is the fatal error kind's nonzero code when it
failed; the API layer surfaces that code verbatim, and the upload-page
consumer's success/failure determination agrees with it. -/
theorem completion_code_contract (input : InputFile) (cfg : Config) :
    ((run input cfg).completionCode = 0
        ↔ ∃ rows, pipelineEnhanced input cfg = .ok rows)
  ∧ (∀ e : ErrorKind, pipelineEnhanced input cfg = .error e →
        (run input cfg).completionCode = e.code ∧ e.code ≠ 0)
  ∧ (apiPipelineResponse (run input cfg)).return_code
        = (run input cfg).completionCode
  ∧ (consumerDeemsSuccess (apiPipelineResponse (run input cfg)) = true
        ↔ (run input cfg).completionCode = 0) := by
  refine ⟨?_, ?_, rfl, ?_⟩
  · cases henh : pipelineEnhanced input cfg with
    | error e =>
      rw [run_error_eq input cfg e henh]
      constructor
      · intro h0
        exfalso
        cases e <;> simp [runFailure, ErrorKind.code] at h0
      · rintro ⟨rows, hrows⟩
        simp at hrows
    | ok rows =>
      rw [run_ok_eq input cfg rows henh]
      exact ⟨fun _ => ⟨rows, rfl⟩, fun _ => rfl⟩
  · intro e he
    rw [run_error_eq input cfg e he]
    refine ⟨rfl, ?_⟩
    cases e <;> simp [ErrorKind.code]
  · by_cases hc : (run input cfg).completionCode = 0 <;>
      simp [consumerDeemsSuccess, apiPipelineResponse, hc]

theorem completion_code_contract_witness :
    ((run missingPaymentInput sampleConfig).completionCode
          = ErrorKind.inputValidation.code
      ∧ ErrorKind.inputValidation.code ≠ 0)
  ∧ (consumerDeemsSuccess (apiPipelineResponse (run missingPaymentInput sampleConfig)) = true
      ↔ (run missingPaymentInput sampleConfig).completionCode = 0) :=
  ⟨(completion_code_contract missingPaymentInput sampleConfig).2.1
      ErrorKind.inputValidation rfl,
   (completion_code_contract missingPaymentInput sampleConfig).2.2.2⟩

/-- C7 narrative determinism: the narrative generator is a pure function of
the WeeklyAggregate, DriverRecord and MLDiagnosticRecord artifacts and the
configuration — two invocations on identical upstream artifacts with the same
config render byte-identical text. -/
theorem narrative_determinism
    (w1 w2 : List (WeeklyAggregate (Nat × String × String)))
    (d1 d2 : List DriverRecord) (m1 m2 : List MLDiagnosticRecord)
    (c1 c2 : Config)
    (hw : w1 = w2) (hd : d1 = d2) (hm : m1 = m2) (hc : c1 = c2) :
    renderNarrative (generateNarrative w1 d1 m1 c1)
      = renderNarrative (generateNarrative w2 d2 m2 c2) := by
  subst hw
  subst hd
  subst hm
  subst hc
  rfl

theorem narrative_determinism_witness :
    renderNarrative (generateNarrative [] [] [] sampleConfig)
      = renderNarrative (generateNarrative [] [] [] sampleConfig) :=
  narrative_determinism [] [] [] [] [] [] sampleConfig sampleConfig
    rfl rfl rfl rfl

/-! ## Front-end artifact listing and classification -/

/-- Embedded from the Dashboard pages: one entry of the `/api/download/list`
response — name, relative path, byte size and modification time.  The record
carries no kind field. -/
structure OutputFile where
  name : String
  relpath : String
  size_bytes : Nat
  modified_at : Nat
deriving Repr, DecidableEq

def charsPrefixOf : List Char → List Char → Bool
  | [], _ => true
  | _ :: _, [] => false
  | a :: ps, b :: s => a == b && charsPrefixOf ps s

def charsIncludes (pat : List Char) : List Char → Bool
  | [] => charsPrefixOf pat []
  | c :: t => charsPrefixOf pat (c :: t) || charsIncludes pat t

/-- JavaScript `String.prototype.includes`: substring containment. -/
def strIncludes (s pat : String) : Bool := charsIncludes pat.toList s.toList

/-- Embedded from src/unnamed/part_003 (MLResults, lines 5–9): a file counts
as an ML output exactly when its NAME includes one of four substrings. -/
def mlResultsIsML (f : OutputFile) : Bool :=
  strIncludes f.name "ml_rate_diagnostics"
    || strIncludes f.name "ML_Expected_Rate"
    || strIncludes f.name "ML_Rate_Gap"
    || strIncludes f.name "ML_Materiality_Flag"

/-- Embedded from src/unnamed/part_003 (MLResults, lines 12–16): ML insight
files, again matched purely on the file NAME. -/
def mlResultsIsInsight (f : OutputFile) : Bool :=
  strIncludes f.name "pipeline_summary"
    || strIncludes f.name "performance_narratives"
    || strIncludes f.name "processed_invoice_data"

/-- Embedded from src/unnamed/part_003 (MLResults, line 5): the mlOutputs
filter. -/
def mlOutputs (outputs : List OutputFile) : List OutputFile :=
  outputs.filter mlResultsIsML

/-- Embedded from src/unnamed/part_003 (MLResults, line 12): the
mlInsightFiles filter. -/
def mlInsightFiles (outputs : List OutputFile) : List OutputFile :=
  outputs.filter mlResultsIsInsight

/-- Embedded from src/frontend/src/components/MLTriagePanel.js (lines 30–34):
ML diagnostics files matched on NAME substrings. -/
def triageIsML (f : OutputFile) : Bool :=
  strIncludes f.name "ml_" || strIncludes f.name "ML_"
    || strIncludes f.name "diagnostics"

/-- Two artifact records identical in every non-name field. -/
def kindlessFileA : OutputFile :=
  { name := "ml_rate_diagnostics.csv", relpath := "out/report.csv",
    size_bytes := 2048, modified_at := 1700000000 }

def kindlessFileB : OutputFile :=
  { name := "weekly_report.csv", relpath := "out/report.csv",
    size_bytes := 2048, modified_at := 1700000000 }

/-- C8 counterexample: the MLResults consumer classifies two artifacts that
agree on every field except the filename differently, so a consumer does
determine an artifact's ML-kind by matching substrings of its filename, and
the artifact record carries no kind field to consult instead — the claim is
false on this code. -/
theorem artifact_kind_counterexample :
    kindlessFileA.relpath = kindlessFileB.relpath
  ∧ kindlessFileA.size_bytes = kindlessFileB.size_bytes
  ∧ kindlessFileA.modified_at = kindlessFileB.modified_at
  ∧ mlResultsIsML kindlessFileA = true
  ∧ mlResultsIsML kindlessFileB = false
  ∧ mlOutputs [kindlessFileA, kindlessFileB] = [kindlessFileA]
  ∧ triageIsML kindlessFileA = true
  ∧ triageIsML kindlessFileB = false := by
  decide

/-- C8 (amended): produced artifact records carry no kind field — only name,
relpath, byte size and modification time — and the UI consumers classify
artifacts by filename-substring matching: MLResults selects exactly the files
whose name includes one of its ML substrings (likewise for its insight files),
and the classification of an artifact depends only on its name. -/
theorem artifact_kind_amended (outputs : List OutputFile) (f : OutputFile) :
    (f ∈ mlOutputs outputs ↔ f ∈ outputs ∧ mlResultsIsML f = true)
  ∧ (f ∈ mlInsightFiles outputs ↔ f ∈ outputs ∧ mlResultsIsInsight f = true)
  ∧ (∀ g : OutputFile, g.name = f.name →
        mlResultsIsML g = mlResultsIsML f ∧ triageIsML g = triageIsML f) := by
  refine ⟨?_, ?_, ?_⟩
  · simp [mlOutputs, List.mem_filter]
  · simp [mlInsightFiles, List.mem_filter]
  · intro g hg
    unfold mlResultsIsML triageIsML
    rw [hg]
    exact ⟨rfl, rfl⟩

theorem artifact_kind_amended_witness :
    (kindlessFileA ∈ mlOutputs [kindlessFileA, kindlessFileB]
      ↔ kindlessFileA ∈ [kindlessFileA, kindlessFileB]
          ∧ mlResultsIsML kindlessFileA = true)
  ∧ (mlResultsIsML { kindlessFileA with size_bytes := 1 }
        = mlResultsIsML kindlessFileA
      ∧ triageIsML { kindlessFileA with size_bytes := 1 }
        = triageIsML kindlessFileA) :=
  ⟨(artifact_kind_amended [kindlessFileA, kindlessFileB] kindlessFileA).1,
   (artifact_kind_amended [kindlessFileA, kindlessFileB] kindlessFileA).2.2
      { kindlessFileA with size_bytes := 1 } rfl⟩

/-! ## Dashboard formatFileSize -/

/-- Embedded from src/unnamed/part_001 and part_002 (Dashboard,
formatFileSize): the unit table. -/
def sizes : List String := ["Bytes", "KB", "MB", "GB"]

/-- Embedded from Dashboard's formatFileSize: the unit index
Math.floor(Math.log(bytes) / Math.log(1024)).  Over the byte ranges below,
double-precision evaluation of the log ratio floors to the exact real value,
so the index is modelled as the natural base-1024 logarithm. -/
def fileSizeIndex (bytes : Nat) : Nat := Nat.log 1024 bytes

/-- JS array indexing: an out-of-range access yields `undefined`, which JS
string concatenation renders as the string "undefined". -/
def sizeUnit (bytes : Nat) : String := sizes.getD (fileSizeIndex bytes) "undefined"

/-- Embedded from Dashboard's formatFileSize: the numeric part
parseFloat((bytes / Math.pow(1024, i)).toFixed(2)), modelled in exact rational
arithmetic — the quotient rounded to two decimals, rendered without the
trailing zeros parseFloat drops. -/
def twoDecimalString (q : ℚ) : String :=
  let n : ℤ := round (q * 100)
  let ip := n / 100
  let fr := (n % 100).toNat
  if fr = 0 then toString ip
  else if fr % 10 = 0 then toString ip ++ "." ++ toString (fr / 10)
  else if fr < 10 then toString ip ++ ".0" ++ toString fr
  else toString ip ++ "." ++ toString fr

/-- Embedded from src/unnamed/part_001 lines 27–33 and part_002 lines 27–33
(Dashboard, formatFileSize). -/
def formatFileSize (bytes : Nat) : String :=
  if bytes = 0 then "0 Bytes"
  else twoDecimalString ((bytes : ℚ) / (1024 : ℚ) ^ fileSizeIndex bytes)
        ++ " " ++ sizeUnit bytes

/-- C9 formatFileSize: returns "0 Bytes" at byte count 0; for every
1 ≤ b < 1024^4 it returns a number followed by a unit drawn from
Bytes/KB/MB/GB; for b ≥ 1024^4 the unit index leaves the sizes array and the
rendered unit is the string "undefined". -/
theorem formatFileSize_spec :
    formatFileSize 0 = "0 Bytes"
  ∧ (∀ b : Nat, 1 ≤ b → b < 1024 ^ 4 →
        sizeUnit b ∈ sizes
      ∧ ∃ numStr, formatFileSize b = numStr ++ " " ++ sizeUnit b)
  ∧ (∀ b : Nat, 1024 ^ 4 ≤ b →
        sizeUnit b = "undefined"
      ∧ ∃ numStr, formatFileSize b = numStr ++ " undefined") := by
  refine ⟨rfl, ?_, ?_⟩
  · intro b hb1 hb2
    have hb0 : b ≠ 0 := by omega
    have hlog : fileSizeIndex b < 4 := by
      unfold fileSizeIndex
      exact (Nat.lt_pow_iff_log_lt (by norm_num) hb0).mp hb2
    constructor
    · unfold sizeUnit
      have h4 : fileSizeIndex b = 0 ∨ fileSizeIndex b = 1
          ∨ fileSizeIndex b = 2 ∨ fileSizeIndex b = 3 := by omega
      rcases h4 with h | h | h | h <;> rw [h] <;> simp [sizes]
    · refine ⟨twoDecimalString ((b : ℚ) / (1024 : ℚ) ^ fileSizeIndex b), ?_⟩
      unfold formatFileSize
      rw [if_neg hb0]
  · intro b hb
    have hb0 : b ≠ 0 := by
      intro h
      rw [h] at hb
      omega
    have hlog : 4 ≤ fileSizeIndex b := by
      unfold fileSizeIndex
      exact (Nat.pow_le_iff_le_log (by norm_num) hb0).mp hb
    have hunit : sizeUnit b = "undefined" := by
      unfold sizeUnit
      exact List.getD_eq_default _ _ (by simpa [sizes] using hlog)
    refine ⟨hunit, twoDecimalString ((b : ℚ) / (1024 : ℚ) ^ fileSizeIndex b), ?_⟩
    unfold formatFileSize
    rw [if_neg hb0, hunit, String.append_assoc]
    rfl

theorem formatFileSize_spec_witness :
    sizeUnit 500 ∈ sizes ∧ sizeUnit (1024 ^ 4) = "undefined" :=
  ⟨(formatFileSize_spec.2.1 500 (by norm_num) (by norm_num)).1,
   (formatFileSize_spec.2.2 (1024 ^ 4) (le_refl _)).1⟩

/-! ## Upload handlers: the missing-file guard -/

structure UploadPageState where
  selectedFile : Option String
  uploadStatus : String
  processing : Bool
deriving Repr, DecidableEq

/-- Embedded from src/frontend/src/pages/Upload.js and pages/upload.js
(handleUpload, lines 13–17): with no file selected the handler sets the
prompt status and returns at once; otherwise it enters the try block, marks
processing, sets the uploading status and posts the upload (the subsequent
response handling is asynchronous and not needed by the guard property). -/
def handleUpload (s : UploadPageState) : UploadPageState × List String :=
  match s.selectedFile with
  | none => ({ s with uploadStatus := "❌ Please select a file first." }, [])
  | some _ =>
      ({ s with processing := true, uploadStatus := "📤 Uploading file..." },
       ["POST /api/upload"])

structure UploadDataState where
  file : Option String
  uploading : Bool
  error : String
deriving Repr, DecidableEq

/-- Embedded from src/frontend/src/components/UploadData.js (handleUpload,
lines 13–17): the same guard, phrased with an error message. -/
def uploadDataHandleUpload (s : UploadDataState) : UploadDataState × List String :=
  match s.file with
  | none => ({ s with error := "Please select a file first." }, [])
  | some _ => ({ s with uploading := true, error := "" }, ["POST /api/upload"])

/-- C10 upload guard: when no file is selected, both upload handlers set a
message prompting for a file and return without issuing any HTTP request,
leaving every other piece of component state unchanged. -/
theorem upload_guard_no_file (s : UploadPageState) (t : UploadDataState)
    (hs : s.selectedFile = none) (ht : t.file = none) :
    (handleUpload s).2 = []
  ∧ (handleUpload s).1.uploadStatus = "❌ Please select a file first."
  ∧ (handleUpload s).1.selectedFile = s.selectedFile
  ∧ (handleUpload s).1.processing = s.processing
  ∧ (uploadDataHandleUpload t).2 = []
  ∧ (uploadDataHandleUpload t).1.error = "Please select a file first."
  ∧ (uploadDataHandleUpload t).1.file = t.file
  ∧ (uploadDataHandleUpload t).1.uploading = t.uploading := by
  simp [handleUpload, uploadDataHandleUpload, hs, ht]

def emptyUploadPage : UploadPageState :=
  { selectedFile := none, uploadStatus := "", processing := false }

def emptyUploadData : UploadDataState :=
  { file := none, uploading := false, error := "" }

theorem upload_guard_no_file_witness :
    (handleUpload emptyUploadPage).2 = []
  ∧ (handleUpload emptyUploadPage).1.uploadStatus
        = "❌ Please select a file first."
  ∧ (handleUpload emptyUploadPage).1.selectedFile = emptyUploadPage.selectedFile
  ∧ (handleUpload emptyUploadPage).1.processing = emptyUploadPage.processing
  ∧ (uploadDataHandleUpload emptyUploadData).2 = []
  ∧ (uploadDataHandleUpload emptyUploadData).1.error
        = "Please select a file first."
  ∧ (uploadDataHandleUpload emptyUploadData).1.file = emptyUploadData.file
  ∧ (uploadDataHandleUpload emptyUploadData).1.uploading
        = emptyUploadData.uploading :=
  upload_guard_no_file emptyUploadPage emptyUploadData rfl rfl

end RevenuePerf
